import Mathlib

/-!
Verification of the pylsl-tools time-disciplined stream engine.

This file shallowly embeds the parts of the code that the checked claims
are about:

* `control_states.py` — the `ControlStates` IntEnum (STOP=1, START=2, PAUSE=3);
* `streams/test_stream.py` — `BaseTestStream`: the worker main loop (`run`),
  `initialise_time`, `check_continue`, `check_control_state`,
  `generate_sample` and `generate_channel_data`;
* `streams/control_sender.py` — `ControlSender.cli` (the REPL pushing
  JSON-encoded control markers);
* `streams/control_receiver.py` — `ControlReceiver.run` (dedup-forwarding
  of control messages) and `BaseMarkerStream.parse_message`;
* `streams/relay_stream.py` — the monitor-heartbeat condition of
  `RelayStream.run` together with the `nominal_srate` that
  `BaseMarkerStream.__init__` fixes for every monitor sender;
* `simulate.py` — the channel-count adjustment in `Simulate.__init__`.

Machine floats are modelled by exact rationals (the code computes timestamps
by repeated addition of `delta = 1 / nominal_srate`; the arithmetic laws are
stated exactly, which is what the spec means "within float tolerance").
Python dictionary access is modelled explicitly: a JSON field is `missing`
(lookup raises `KeyError`), `jnull` (the value `None`), or a number; reading
an attribute that was never assigned raises `AttributeError`.  The
floating-point `math.sin` of the sample generator is kept opaque: the model
takes a parameter `sinTau` with `sinTau t` standing for `math.sin(2*pi*t)`.
-/

namespace Pylsltools

/-- `ControlStates` from `control_states.py`: an `IntEnum` with
STOP = 1, START = 2, PAUSE = 3. -/
inductive ControlState
  | STOP
  | START
  | PAUSE
  deriving DecidableEq, Repr

/-- The integer value of each enum member (`IntEnum` + `auto()`). -/
def ControlState.toInt : ControlState → ℤ
  | .STOP => 1
  | .START => 2
  | .PAUSE => 3

/-- Python runtime errors that the embedded code paths can raise. -/
inductive PyError
  | attributeError
  | keyError
  | typeError
  deriving DecidableEq, Repr

/-- A numeric field of a JSON-decoded Python dict: the key may be absent
(`missing`, lookup raises `KeyError`), present with value `None` (`jnull`),
or present with a number. -/
inductive JField
  | missing
  | jnull
  | jnum (q : ℚ)
  deriving DecidableEq, Repr

/-- Python truthiness of an optional float: `None` and `0.0` are falsy. -/
def truthy : Option ℚ → Bool
  | none => false
  | some q => decide (q ≠ 0)

/-- A control message as seen by a worker: the dict
`{state, time_stamp, latency}` (`test_stream.py` reads
`message["state"]`, `message["time_stamp"]`, `message["latency"]`). -/
structure ControlMessage where
  state : ControlState
  time_stamp : JField
  latency : JField
  deriving DecidableEq, Repr

/-- The per-channel generator function tags accepted by `simulate.py`
(`--fn` choices) and interpreted by
`BaseTestStream.generate_channel_data`. -/
inductive FnTag
  | streamId      -- "stream-id"
  | streamSeq     -- "stream-seq"
  | counter       -- "counter"
  | counterPlus   -- "counter+"
  | counterModFs  -- "counter-mod-fs"
  | impulse       -- "impulse"
  | sine          -- "sine"
  | sinePlus      -- "sine+"
  deriving DecidableEq, Repr

/-- `self.functions[min(channel_idx, len(self.functions) - 1)]`
(`test_stream.py:203`): the tag used for a channel; past the end of the
tag list the last tag is reused.  (For an empty tag list the Python code
would raise `IndexError`; the CLI guarantees at least one tag, and the
theorems below assume a non-empty list.) -/
def selectedTag (functions : List FnTag) (channel_idx : ℕ) : FnTag :=
  functions.getD (min channel_idx (functions.length - 1)) FnTag.counter

/-- `BaseTestStream.generate_channel_data` (`test_stream.py:202-222`).
`sinTau t` stands for Python's `math.sin(2 * math.pi * t)`, kept opaque
because it is floating point; every other branch is exact integer
arithmetic. -/
def generate_channel_data (sinTau : ℚ → ℚ) (functions : List FnTag)
    (channel_count : ℕ) (stream_idx : ℤ) (nominal_srate : ℕ)
    (time : ℚ) (sample_idx channel_idx : ℕ) : ℚ :=
  match selectedTag functions channel_idx with
  | FnTag.streamId => (stream_idx : ℚ)
  | FnTag.streamSeq => (stream_idx : ℚ) + (channel_idx : ℚ)
  | FnTag.counter => (sample_idx : ℚ)
  | FnTag.counterPlus => (sample_idx : ℚ) * (channel_count : ℚ) + (channel_idx : ℚ)
  | FnTag.counterModFs => ((sample_idx % nominal_srate : ℕ) : ℚ)
  | FnTag.impulse => if sample_idx % nominal_srate = 0 then 1 else 0
  | FnTag.sine => sinTau time
  | FnTag.sinePlus => sinTau ((2 : ℚ) ^ channel_idx * time)

/-- `BaseTestStream.generate_sample` (`test_stream.py:194-200`): one value
per channel index below `channel_count`. -/
def generate_sample (sinTau : ℚ → ℚ) (functions : List FnTag)
    (channel_count : ℕ) (stream_idx : ℤ) (nominal_srate : ℕ)
    (time : ℚ) (sample_idx : ℕ) : List ℚ :=
  (List.range channel_count).map fun channel_idx =>
    generate_channel_data sinTau functions channel_count stream_idx
      nominal_srate time sample_idx channel_idx

/-- The per-worker configuration fixed at construction time
(`BaseTestStream.__init__` / `TestDataStream.__init__`). -/
structure WorkerCfg where
  sinTau : ℚ → ℚ
  functions : List FnTag
  channel_count : ℕ
  stream_idx : ℤ
  nominal_srate : ℕ
  max_time : Option ℚ
  max_samples : Option ℕ

/-- `self.delta = 1 / nominal_srate` (`test_stream.py:265`). -/
def WorkerCfg.delta (cfg : WorkerCfg) : ℚ := 1 / (cfg.nominal_srate : ℚ)

/-- The mutable worker attributes.  `logical_time = none` and
`latency = none` mean the attribute was never assigned (Python raises
`AttributeError` on read); `start_time`/`stop_time` are assigned `None`
by `__init__`, so `none` there is the Python value `None`. -/
structure WorkerState where
  sample_count : ℕ
  elapsed_time : ℚ
  start_time : Option ℚ
  stop_time : Option ℚ
  logical_time : Option ℚ
  latency : Option ℚ
  deriving DecidableEq, Repr

/-- The attribute values set by `BaseTestStream.__init__`
(`test_stream.py:56-71`). -/
def initWorkerState : WorkerState :=
  { sample_count := 0
    elapsed_time := 0
    start_time := none
    stop_time := none
    logical_time := none
    latency := none }

/-- `BaseTestStream.initialise_time` (`test_stream.py:135-141`). -/
def initialise_time (s : WorkerState) (start_time : ℚ) (latency : Option ℚ) :
    WorkerState :=
  { s with
    latency := latency
    start_time := some start_time
    logical_time := some start_time
    elapsed_time := 0 }

/-- The message-handling body of `BaseTestStream.check_control_state`
(`test_stream.py:179-191`).  The three `if` statements are sequential in
the source; since the states are distinct at most one fires, so a match
is equivalent.  `clock` is the worker's `local_clock()` reading, used when
a START carries no usable `time_stamp`. -/
def handle_message (clock : ℚ) (s : WorkerState) (m : ControlMessage) :
    Except PyError WorkerState :=
  match m.state with
  | ControlState.PAUSE =>
    match m.time_stamp with
    | JField.missing => Except.error PyError.keyError
    | JField.jnull => Except.ok { s with stop_time := none }
    | JField.jnum q => Except.ok { s with stop_time := some q }
  | ControlState.START =>
    match m.time_stamp with
    | JField.missing => Except.error PyError.keyError
    | ts =>
      match m.latency with
      | JField.missing => Except.error PyError.keyError
      | lat =>
        let tsv : Option ℚ := match ts with | JField.jnum q => some q | _ => none
        let latv : Option ℚ := match lat with | JField.jnum q => some q | _ => none
        let T := if truthy tsv then tsv.getD 0 else clock
        Except.ok (initialise_time s T latv)
  | ControlState.STOP =>
    match m.time_stamp with
    | JField.missing => Except.error PyError.keyError
    | JField.jnull => Except.ok { s with stop_time := none }
    | JField.jnum q => Except.ok { s with stop_time := some q }

/-- `BaseTestStream.check_control_state` (`test_stream.py:166-192`):
if running and the mailbox is empty, do nothing; otherwise block on the
mailbox (`.ok none` models the blocking `get` when nothing ever arrives)
and handle the received message.  The Python method always returns
`True`. -/
def check_control_state (clock : ℚ) (s : WorkerState)
    (msg : Option ControlMessage) : Except PyError (Option WorkerState) :=
  if truthy s.start_time && msg.isNone then Except.ok (some s)
  else
    match msg with
    | none => Except.ok none
    | some m =>
      match handle_message clock s m with
      | Except.ok s2 => Except.ok (some s2)
      | Except.error e => Except.error e

/-- Outcome of one `check_continue` call.  `err` carries the worker state
at the moment the exception is raised. -/
inductive ContinueOutcome
  | cont (s : WorkerState)
  | halt (s : WorkerState)
  | blocked (s : WorkerState)
  | err (e : PyError) (s : WorkerState)
  deriving DecidableEq, Repr

def ContinueOutcome.stateOf : ContinueOutcome → WorkerState
  | .cont s => s
  | .halt s => s
  | .blocked s => s
  | .err _ s => s

/-- `if self.max_time is not None: if self.elapsed_time > self.max_time`
(`test_stream.py:154-158`). -/
def capHitTime (cfg : WorkerCfg) (s : WorkerState) : Bool :=
  match cfg.max_time with
  | some mt => decide (s.elapsed_time > mt)
  | none => false

/-- `if self.max_samples is not None: if self.sample_count > self.max_samples`
(`test_stream.py:159-163`).  Note the strict `>`. -/
def capHitSamples (cfg : WorkerCfg) (s : WorkerState) : Bool :=
  match cfg.max_samples with
  | some m => decide (s.sample_count > m)
  | none => false

/-- The cap checks at the end of `check_continue` (`test_stream.py:154-164`). -/
def check_caps (cfg : WorkerCfg) (s : WorkerState) : ContinueOutcome :=
  if capHitTime cfg s then ContinueOutcome.halt s
  else if capHitSamples cfg s then ContinueOutcome.halt s
  else ContinueOutcome.cont s

/-- The `stop_time` block of `check_continue` (`test_stream.py:148-153`):
reading `self.logical_time` raises `AttributeError` if the worker never
ran `initialise_time`; at `logical_time >= stop_time` both `start_time`
and `stop_time` are set back to `None`. -/
def check_stop_time (cfg : WorkerCfg) (s : WorkerState) : ContinueOutcome :=
  match s.stop_time with
  | none => check_caps cfg s
  | some st =>
    match s.logical_time with
    | none => ContinueOutcome.err PyError.attributeError s
    | some lt =>
      if lt ≥ st then
        check_caps cfg { s with start_time := none, stop_time := none }
      else check_caps cfg s

/-- One iteration's input: the mailbox content (`none` = empty), the
`local_clock()` reading, and the value of the external stop event
(`is_stopped()`, set by the parent's `stop()`). -/
structure TickInput where
  msg : Option ControlMessage
  clock : ℚ
  stopEvent : Bool

/-- `BaseTestStream.check_continue` (`test_stream.py:143-164`). -/
def check_continue (cfg : WorkerCfg) (t : TickInput) (s : WorkerState) :
    ContinueOutcome :=
  if t.stopEvent then ContinueOutcome.halt s
  else
    match check_control_state t.clock s t.msg with
    | Except.error e => ContinueOutcome.err e s
    | Except.ok none => ContinueOutcome.blocked s
    | Except.ok (some s2) => check_stop_time cfg s2

/-- One outlet push: `push_sample(sample, timestamp=self.logical_time)`. -/
structure Emission where
  sample : List ℚ
  timestamp : ℚ
  deriving DecidableEq, Repr

/-- The loop body of `BaseTestStream.run` when `self.start_time` is truthy
(`test_stream.py:96-122`): generate the sample from the current
`elapsed_time` and `sample_count`, push it stamped `logical_time`, then
increment `sample_count`, advance `logical_time` by `delta`, recompute
`elapsed_time`, and compute the pacing delay (which reads `self.latency`;
an unassigned/`None` latency raises there).  Sleeping and the LATE
diagnostic do not affect the emitted data.  Modelling note: in the
source the push and the state updates precede the delay computation, so
a `None`-latency iteration would still push one sample before raising;
here the whole iteration fails without recording that emission — no
claim exercises a START with a null latency. -/
def emit_step (cfg : WorkerCfg) (s : WorkerState) :
    Except PyError (Emission × WorkerState) :=
  match s.logical_time, s.latency, s.start_time with
  | some lt, some _, some st =>
    let sample := generate_sample cfg.sinTau cfg.functions cfg.channel_count
      cfg.stream_idx cfg.nominal_srate s.elapsed_time s.sample_count
    let lt2 := lt + cfg.delta
    Except.ok (⟨sample, lt⟩,
      { s with
        sample_count := s.sample_count + 1
        logical_time := some lt2
        elapsed_time := lt2 - st })
  | none, _, _ => Except.error PyError.attributeError
  | some _, none, _ => Except.error PyError.typeError
  | some _, some _, none => Except.error PyError.attributeError

/-- Result of running the worker loop on a finite input trace.  Each
constructor carries the final worker state and the emissions in order.
`exited` = `check_continue` returned `False` (clean loop exit),
`crashed` = an uncaught exception (state at the raise point),
`blocked` = the worker is parked in the blocking mailbox `get`,
`fuelOut` = the trace ended with the loop still running. -/
inductive RunResult
  | exited (s : WorkerState) (emits : List Emission)
  | crashed (e : PyError) (s : WorkerState) (emits : List Emission)
  | blocked (s : WorkerState) (emits : List Emission)
  | fuelOut (s : WorkerState) (emits : List Emission)
  deriving DecidableEq, Repr

def RunResult.consEmit (em : Emission) : RunResult → RunResult
  | .exited s l => .exited s (em :: l)
  | .crashed e s l => .crashed e s (em :: l)
  | .blocked s l => .blocked s (em :: l)
  | .fuelOut s l => .fuelOut s (em :: l)

def RunResult.emits : RunResult → List Emission
  | .exited _ l => l
  | .crashed _ _ l => l
  | .blocked _ l => l
  | .fuelOut _ l => l

def RunResult.finalState : RunResult → WorkerState
  | .exited s _ => s
  | .crashed _ s _ => s
  | .blocked s _ => s
  | .fuelOut s _ => s

def RunResult.isExited : RunResult → Bool
  | .exited _ _ => true
  | _ => false

def RunResult.isBlocked : RunResult → Bool
  | .blocked _ _ => true
  | _ => false

/-- The main loop of `BaseTestStream.run` (`test_stream.py:94-122`),
driven by one `TickInput` per iteration. -/
def runWorker (cfg : WorkerCfg) : WorkerState → List TickInput → RunResult
  | s, [] => RunResult.fuelOut s []
  | s, t :: ts =>
    match check_continue cfg t s with
    | ContinueOutcome.halt s2 => RunResult.exited s2 []
    | ContinueOutcome.blocked s2 => RunResult.blocked s2 []
    | ContinueOutcome.err e s2 => RunResult.crashed e s2 []
    | ContinueOutcome.cont s2 =>
      if truthy s2.start_time then
        match emit_step cfg s2 with
        | Except.error e => RunResult.crashed e s2 []
        | Except.ok (em, s3) => (runWorker cfg s3 ts).consEmit em
      else runWorker cfg s2 ts

/-- A tick delivering a START with a synchronised `time_stamp` and a
`latency` value, as built by `Simulate.start` (`simulate.py:170-176`). -/
def startTick (T lat clock : ℚ) : TickInput :=
  ⟨some ⟨ControlState.START, JField.jnum T, JField.jnum lat⟩, clock, false⟩

/-- A tick delivering a STOP with a `time_stamp`. -/
def stopTick (ts : ℚ) : TickInput :=
  ⟨some ⟨ControlState.STOP, JField.jnum ts, JField.missing⟩, 0, false⟩

/-- A tick delivering a PAUSE with a `time_stamp`. -/
def pauseTick (ts : ℚ) : TickInput :=
  ⟨some ⟨ControlState.PAUSE, JField.jnum ts, JField.missing⟩, 0, false⟩

/-- A tick with an empty mailbox and the stop event clear. -/
def quietTick : TickInput := ⟨none, 0, false⟩

/-- Quiet ticks with arbitrary `local_clock()` readings: scheduling jitter
appears in the model only through these clock values. -/
def quietTicksOf (clocks : List ℚ) : List TickInput :=
  clocks.map fun q => ⟨none, q, false⟩

/-- A concrete worker configuration used for concrete evaluations: one
`counter` channel at 1 Hz, no caps. -/
def cfgW : WorkerCfg :=
  { sinTau := fun _ => 0
    functions := [FnTag.counter]
    channel_count := 1
    stream_idx := 0
    nominal_srate := 1
    max_time := none
    max_samples := none }

/-- Like `cfgW` but with `max_samples = 2`. -/
def cfgMax2 : WorkerCfg :=
  { cfgW with max_samples := some 2 }

/-- The payload dict that `ControlSender.cli` JSON-encodes
(`control_sender.py:48-60`): only the `state` key is ever written, so the
`latency` key is always `missing`. -/
structure SenderPayload where
  state : ControlState
  latency : JField
  deriving DecidableEq, Repr

/-- One REPL iteration of `ControlSender.cli` (`control_sender.py:47-62`):
an accepted command pushes a sample `(payload, clock + latency)`; anything
else pushes nothing. -/
def controlSenderPush (clock latency : ℚ) (cmd : String) :
    Option (SenderPayload × ℚ) :=
  if cmd = "start" then some (⟨ControlState.START, JField.missing⟩, clock + latency)
  else if cmd = "pause" then some (⟨ControlState.PAUSE, JField.missing⟩, clock + latency)
  else if cmd = "stop" then some (⟨ControlState.STOP, JField.missing⟩, clock + latency)
  else none

/-- The whole `ControlSender.cli` REPL loop over a list of typed lines,
each with the `local_clock()` value at that moment.  After a `stop` the
sender calls `self.stop()` and the `while not self.is_stopped()` loop
ends, so later input is never read. -/
def controlSenderRun (latency : ℚ) : List (String × ℚ) → List (SenderPayload × ℚ)
  | [] => []
  | (cmd, clock) :: rest =>
    match controlSenderPush clock latency cmd with
    | some pr =>
      pr :: (if pr.1.state = ControlState.STOP then [] else controlSenderRun latency rest)
    | none => controlSenderRun latency rest

/-- `BaseMarkerStream.parse_message` (`base_stream.py:249-257`) applied to
a control payload: the JSON is decoded and, when the pull timestamp is
truthy, attached as `time_stamp`. -/
def parse_message (p : SenderPayload) (ts : ℚ) : ControlMessage :=
  { state := p.state
    time_stamp := if ts ≠ 0 then JField.jnum ts else JField.missing
    latency := p.latency }

/-- The receive loop of `ControlReceiver.run` (`control_receiver.py:44-59`)
over the pulled samples, returning the messages put on
`send_message_queue`.  A message is forwarded only when its state differs
from the last observed state (`self.state`, initialised to STOP by
`__init__`); forwarding a STOP also stops the receiver. -/
def controlReceiverRun (state : ControlState) :
    List (SenderPayload × ℚ) → List ControlMessage
  | [] => []
  | (p, ts) :: rest =>
    let m := parse_message p ts
    if m.state ≠ state then
      m :: (if m.state = ControlState.STOP then [] else controlReceiverRun m.state rest)
    else controlReceiverRun state rest

/-- The state named by an accepted REPL command. -/
def cmdState (cmd : String) : Option ControlState :=
  if cmd = "start" then some ControlState.START
  else if cmd = "pause" then some ControlState.PAUSE
  else if cmd = "stop" then some ControlState.STOP
  else none

/-- The accepted commands' states, truncated after the first `stop`
(mirroring the sender's loop exit). -/
def typedStates : List String → List ControlState
  | [] => []
  | cmd :: rest =>
    match cmdState cmd with
    | some st => st :: (if st = ControlState.STOP then [] else typedStates rest)
    | none => typedStates rest

/-- Keep only the elements that differ from the previously kept one,
seeded with `st`. -/
def dedupFrom (st : ControlState) : List ControlState → List ControlState
  | [] => []
  | s :: rest => if s = st then dedupFrom st rest else s :: dedupFrom s rest

/-- `pylsl.IRREGULAR_RATE` (the value `0.0`). -/
def IRREGULAR_RATE : ℚ := 0

/-- The fields of a `MonitorSender` that `RelayStream.run` reads. -/
structure MonitorSenderModel where
  name : String
  nominal_srate : ℚ
  deriving DecidableEq, Repr

/-- The `make_stream_info` methods (`base_stream.py:44`, `186`, `238`)
take no arguments beyond `self`; Python raises `TypeError` when a call
passes positional arguments.  `make_stream_info_call n` models invoking
the method with `n` positional arguments. -/
def make_stream_info_call (numArgs : ℕ) : Except PyError Unit :=
  if numArgs = 0 then Except.ok () else Except.error PyError.typeError

/-- Constructing a `MonitorSender` (`monitor_stream.py:20-34`):
`BaseMarkerStream.__init__` (`base_stream.py:218-233`) unconditionally
sets `nominal_srate = IRREGULAR_RATE`, and then `monitor_stream.py:31`
calls `self.make_stream_info(name, content_type, source_id,
manufacturer)` — four positional arguments to the zero-argument method —
so in this snapshot every `MonitorSender` construction raises
`TypeError` before its outlet exists. -/
def mkMonitorSender (name : String) : Except PyError MonitorSenderModel :=
  match make_stream_info_call 4 with
  | Except.ok _ => Except.ok ⟨name, IRREGULAR_RATE⟩
  | Except.error e => Except.error e

/-- Python float modulo `a % b` for `b > 0`: `a - b * floor(a / b)`. -/
def pymod (a b : ℚ) : ℚ := a - b * ((Int.floor (a / b) : ℤ) : ℚ)

/-- The heartbeat condition of `RelayStream.run` (`relay_stream.py:119-123`):
`self.monitor and (self.monitor.nominal_srate == 0 or
sample_count % (self.nominal_srate * self.monitor_interval) == 0)`.
Note that the first disjunct reads the *monitor sender's* nominal rate,
not the relayed stream's; `none` models a falsy `self.monitor`
(monitoring disabled, the attribute still holds `False`). -/
def relay_should_send_heartbeat (monitor : Option MonitorSenderModel)
    (nominal_srate monitor_interval : ℚ) (sample_count : ℕ) : Bool :=
  match monitor with
  | none => false
  | some mon =>
    if mon.nominal_srate = 0 then true
    else decide (pymod (sample_count : ℚ) (nominal_srate * monitor_interval) = 0)

/-- The setup phase of `RelayStream.run` before the pull loop
(`relay_stream.py:85-99`), in source order: with `output` enabled,
line 87 calls the zero-argument `DataStream.make_stream_info` with five
positional arguments (`TypeError`); then, with `monitor` enabled,
line 96 constructs a `MonitorSender` (which raises inside
`MonitorSender.__init__`).  Only with both disabled does `run` reach the
loop, and then `self.monitor` is still the falsy `False`.  The
`try` block starts only at line 101, so a setup `TypeError` propagates
out of `run`. -/
def relayRunSetup (sender_name : String) (output monitor : Bool) :
    Except PyError (Option MonitorSenderModel) :=
  match (if output then make_stream_info_call 5 else Except.ok ()) with
  | Except.error e => Except.error e
  | Except.ok _ =>
    if monitor then
      match mkMonitorSender ("_monitor_" ++ sender_name) with
      | Except.error e => Except.error e
      | Except.ok mon => Except.ok (some mon)
    else Except.ok none

/-- The observable heartbeat behaviour of `RelayStream.run`: run the
setup phase and, if it succeeds, return the relayed-sample counts at
which a heartbeat is sent over the first `numSamples` pulled samples
(`sample_count` starts at 0 and is incremented after the check). -/
def relayRunHeartbeats (sender_name : String) (output monitor : Bool)
    (nominal_srate monitor_interval : ℚ) (numSamples : ℕ) :
    Except PyError (List ℕ) :=
  match relayRunSetup sender_name output monitor with
  | Except.error e => Except.error e
  | Except.ok mon =>
    Except.ok ((List.range numSamples).filter fun k =>
      relay_should_send_heartbeat mon nominal_srate monitor_interval k)

/-- The channel-count adjustment in `Simulate.__init__` (`simulate.py:51-56`):
`if channel_count < len(functions): channel_count = len(functions)`,
applied identically to the data and the marker channel counts. -/
def simulateChannelCount (channel_count : ℕ) (functions : List FnTag) : ℕ :=
  if channel_count < functions.length then functions.length else channel_count

/-! ## Helper lemmas -/

lemma RunResult.emits_consEmit (em : Emission) (r : RunResult) :
    (r.consEmit em).emits = em :: r.emits := by
  cases r <;> rfl

lemma RunResult.finalState_consEmit (em : Emission) (r : RunResult) :
    (r.consEmit em).finalState = r.finalState := by
  cases r <;> rfl

lemma range_map_affine_shift (L d : ℚ) (n : ℕ) :
    (List.range (n + 1)).map (fun k : ℕ => L + (k : ℚ) * d)
      = L :: (List.range n).map (fun k : ℕ => (L + d) + (k : ℚ) * d) := by
  have h0 : (fun k : ℕ => L + (k : ℚ) * d) ∘ Nat.succ
      = fun k : ℕ => (L + d) + (k : ℚ) * d := by
    funext k
    simp [Function.comp, Nat.succ_eq_add_one]
    ring
  rw [List.range_succ_eq_map, List.map_cons, List.map_map, h0]
  norm_num

lemma getD_range_map (f : ℕ → ℚ) (n j : ℕ) (hj : j < n) :
    ((List.range n).map f).getD j 0 = f j := by
  rw [List.getD_eq_getElem?_getD, List.getElem?_map, List.getElem?_range hj]
  rfl

lemma truthy_some_of_ne (T : ℚ) (hT : T ≠ 0) : truthy (some T) = true := by
  simp [truthy, hT]

/-- `check_continue` on a running worker with an empty mailbox passes
every check and changes nothing. -/
lemma check_continue_quiet (cfg : WorkerCfg) (hmt : cfg.max_time = none)
    (hms : cfg.max_samples = none) (c : ℕ) (e T L lat q : ℚ) (hT : T ≠ 0) :
    check_continue cfg ⟨none, q, false⟩ ⟨c, e, some T, none, some L, some lat⟩
      = ContinueOutcome.cont ⟨c, e, some T, none, some L, some lat⟩ := by
  simp [check_continue, check_control_state, check_stop_time, check_caps,
    capHitTime, capHitSamples, truthy_some_of_ne T hT, hmt, hms]

/-- `check_continue` on the freshly constructed worker state receiving a
synchronised START initialises the clock from the message. -/
lemma check_continue_start (cfg : WorkerCfg) (hmt : cfg.max_time = none)
    (hms : cfg.max_samples = none) (T lat clock : ℚ) (hT : T ≠ 0) :
    check_continue cfg (startTick T lat clock) initWorkerState
      = ContinueOutcome.cont ⟨0, 0, some T, none, some T, some lat⟩ := by
  simp [check_continue, check_control_state, handle_message, initialise_time,
    initWorkerState, startTick, check_stop_time, check_caps, capHitTime,
    capHitSamples, truthy, hmt, hms, hT]

/-- Once the worker is running (truthy `start_time`, assigned
`logical_time` and `latency`, cleared `stop_time`, no caps), every tick
with an empty mailbox emits exactly one sample, stamped with the current
`logical_time`, whatever the `local_clock()` readings are. -/
lemma runWorker_quiet_timestamps (cfg : WorkerCfg) (hmt : cfg.max_time = none)
    (hms : cfg.max_samples = none) (T lat : ℚ) (hT : T ≠ 0) :
    ∀ (clocks : List ℚ) (c : ℕ) (e L : ℚ),
      (runWorker cfg ⟨c, e, some T, none, some L, some lat⟩
          (quietTicksOf clocks)).emits.map Emission.timestamp
        = (List.range clocks.length).map (fun k : ℕ => L + (k : ℚ) * cfg.delta) := by
  intro clocks
  induction clocks with
  | nil =>
    intro c e L
    simp [quietTicksOf, runWorker, RunResult.emits]
  | cons q rest ih =>
    intro c e L
    rw [quietTicksOf, List.map_cons]
    show (runWorker cfg ⟨c, e, some T, none, some L, some lat⟩
        (⟨none, q, false⟩ :: quietTicksOf rest)).emits.map Emission.timestamp = _
    rw [runWorker, check_continue_quiet cfg hmt hms c e T L lat q hT]
    simp only [truthy_some_of_ne T hT, emit_step, if_true,
      RunResult.emits_consEmit, List.map_cons, List.length_cons]
    rw [ih (c + 1) (L + cfg.delta - T) (L + cfg.delta)]
    rw [range_map_affine_shift]

/-- Processing a START message with a truthy `time_stamp` `T` initialises
the clock and emits the first sample in the same loop iteration, stamped
exactly `T`. -/
lemma runWorker_start_cons (cfg : WorkerCfg) (hmt : cfg.max_time = none)
    (hms : cfg.max_samples = none) (T lat clock : ℚ) (hT : T ≠ 0)
    (ticks : List TickInput) :
    runWorker cfg initWorkerState (startTick T lat clock :: ticks)
      = (runWorker cfg ⟨1, cfg.delta, some T, none, some (T + cfg.delta), some lat⟩
          ticks).consEmit
          ⟨generate_sample cfg.sinTau cfg.functions cfg.channel_count
            cfg.stream_idx cfg.nominal_srate 0 0, T⟩ := by
  rw [runWorker, check_continue_start cfg hmt hms T lat clock hT]
  simp only [truthy_some_of_ne T hT, emit_step, if_true, add_sub_cancel_left]

lemma handle_message_sample_count (clock : ℚ) (s : WorkerState)
    (m : ControlMessage) (s2 : WorkerState)
    (h : handle_message clock s m = Except.ok s2) :
    s2.sample_count = s.sample_count := by
  obtain ⟨mstate, mts, mlat⟩ := m
  cases mstate <;> cases mts <;> cases mlat <;>
    first
      | (simp only [handle_message, initialise_time, Except.ok.injEq] at h
         subst h
         rfl)
      | simp_all [handle_message]

lemma check_control_state_sample_count (clock : ℚ) (s : WorkerState)
    (msg : Option ControlMessage) (s2 : WorkerState)
    (h : check_control_state clock s msg = Except.ok (some s2)) :
    s2.sample_count = s.sample_count := by
  cases msg with
  | none =>
    unfold check_control_state at h
    split at h
    · simp only [Except.ok.injEq, Option.some.injEq] at h
      rw [← h]
    · simp at h
  | some m =>
    unfold check_control_state at h
    split at h
    · simp only [Except.ok.injEq, Option.some.injEq] at h
      rw [← h]
    · dsimp only at h
      cases hm : handle_message clock s m with
      | ok s3 =>
        rw [hm] at h
        simp only [Except.ok.injEq, Option.some.injEq] at h
        rw [← h]
        exact handle_message_sample_count clock s m s3 hm
      | error e =>
        rw [hm] at h
        simp at h

lemma check_caps_stateOf (cfg : WorkerCfg) (s : WorkerState) :
    (check_caps cfg s).stateOf = s := by
  unfold check_caps
  split
  · rfl
  · split <;> rfl

lemma check_stop_time_sample_count (cfg : WorkerCfg) (s : WorkerState) :
    (check_stop_time cfg s).stateOf.sample_count = s.sample_count := by
  unfold check_stop_time
  split
  · rw [check_caps_stateOf]
  · split
    · rfl
    · split
      · simp [check_caps_stateOf]
      · simp [check_caps_stateOf]

lemma check_continue_sample_count (cfg : WorkerCfg) (t : TickInput)
    (s : WorkerState) :
    (check_continue cfg t s).stateOf.sample_count = s.sample_count := by
  unfold check_continue
  split
  · rfl
  · cases hc : check_control_state t.clock s t.msg with
    | error e => rfl
    | ok o =>
      cases o with
      | none => rfl
      | some s2 =>
        rw [check_stop_time_sample_count cfg s2]
        exact check_control_state_sample_count t.clock s t.msg s2 hc

lemma emit_step_sample_count (cfg : WorkerCfg) (s : WorkerState)
    (em : Emission) (s3 : WorkerState)
    (h : emit_step cfg s = Except.ok (em, s3)) :
    s3.sample_count = s.sample_count + 1 := by
  unfold emit_step at h
  split at h
  · simp only [Except.ok.injEq, Prod.mk.injEq] at h
    obtain ⟨h1, h2⟩ := h
    subst h2
    rfl
  · simp at h
  · simp at h
  · simp at h

/-- Over any input trace, `sample_count` never decreases: it is only ever
incremented by the emit step and no control message resets it. -/
lemma runWorker_sample_count_le (cfg : WorkerCfg) :
    ∀ (ticks : List TickInput) (s : WorkerState),
      s.sample_count ≤ (runWorker cfg s ticks).finalState.sample_count := by
  intro ticks
  induction ticks with
  | nil => intro s; exact Nat.le_refl _
  | cons t ts ih =>
    intro s
    have hc := check_continue_sample_count cfg t s
    rw [runWorker]
    cases hco : check_continue cfg t s with
    | halt s2 =>
      rw [hco] at hc
      simp only [ContinueOutcome.stateOf] at hc
      simp [RunResult.finalState, hc.ge, Nat.le_of_eq hc.symm]
    | blocked s2 =>
      rw [hco] at hc
      simp only [ContinueOutcome.stateOf] at hc
      simp [RunResult.finalState, Nat.le_of_eq hc.symm]
    | err e s2 =>
      rw [hco] at hc
      simp only [ContinueOutcome.stateOf] at hc
      simp [RunResult.finalState, Nat.le_of_eq hc.symm]
    | cont s2 =>
      rw [hco] at hc
      simp only [ContinueOutcome.stateOf] at hc
      dsimp only
      split
      · cases he : emit_step cfg s2 with
        | error e =>
          dsimp only [RunResult.finalState]
          omega
        | ok pr =>
          obtain ⟨em, s3⟩ := pr
          have h3 := emit_step_sample_count cfg s2 em s3 he
          dsimp only
          rw [RunResult.finalState_consEmit]
          have h4 := ih s3
          omega
      · have h4 := ih s2
        omega

/-! ## Claims -/

/-- Claim C1: for a data worker with `nominal_srate > 0` that processes a
START with start time `T`, the `i`-th emitted sample is stamped exactly
`T + i * (1 / nominal_srate)`, and consequently for all emitted samples
`i < j` the difference of timestamps is `(j - i) * (1 / nominal_srate)`;
the `local_clock()` readings (`clock`, `clocks`) — the scheduling jitter —
do not appear in the result. -/
theorem emitted_timestamps_arithmetic (cfg : WorkerCfg)
    (hsr : 0 < cfg.nominal_srate) (hmt : cfg.max_time = none)
    (hms : cfg.max_samples = none) (T lat clock : ℚ) (hT : T ≠ 0)
    (clocks : List ℚ) :
    (runWorker cfg initWorkerState
        (startTick T lat clock :: quietTicksOf clocks)).emits.map Emission.timestamp
      = (List.range (clocks.length + 1)).map
          (fun i : ℕ => T + (i : ℚ) * (1 / (cfg.nominal_srate : ℚ)))
    ∧ ∀ i j : ℕ, i < j → j ≤ clocks.length →
        ((runWorker cfg initWorkerState
            (startTick T lat clock :: quietTicksOf clocks)).emits.map
              Emission.timestamp).getD j 0
          - ((runWorker cfg initWorkerState
              (startTick T lat clock :: quietTicksOf clocks)).emits.map
                Emission.timestamp).getD i 0
          = ((j : ℚ) - (i : ℚ)) * (1 / (cfg.nominal_srate : ℚ)) := by
  have h1 : (runWorker cfg initWorkerState
      (startTick T lat clock :: quietTicksOf clocks)).emits.map Emission.timestamp
      = (List.range (clocks.length + 1)).map
          (fun i : ℕ => T + (i : ℚ) * (1 / (cfg.nominal_srate : ℚ))) := by
    rw [runWorker_start_cons cfg hmt hms T lat clock hT, RunResult.emits_consEmit,
      List.map_cons,
      runWorker_quiet_timestamps cfg hmt hms T lat hT clocks 1 cfg.delta (T + cfg.delta)]
    have h2 := range_map_affine_shift T (1 / (cfg.nominal_srate : ℚ)) clocks.length
    rw [h2]
    rfl
  refine ⟨h1, ?_⟩
  intro i j hij hj
  rw [h1, getD_range_map _ _ j (by omega), getD_range_map _ _ i (by omega)]
  ring

/-- Witness for C1: a 1 Hz counter worker started at `T = 100`; the
difference between timestamps 1 and 0 is `1 / nominal_srate`. -/
theorem emitted_timestamps_arithmetic_witness :
    ((runWorker cfgW initWorkerState
        (startTick 100 0 0 :: quietTicksOf [3, 7])).emits.map
          Emission.timestamp).getD 1 0
      - ((runWorker cfgW initWorkerState
          (startTick 100 0 0 :: quietTicksOf [3, 7])).emits.map
            Emission.timestamp).getD 0 0
      = (((1 : ℕ) : ℚ) - ((0 : ℕ) : ℚ)) * (1 / ((cfgW.nominal_srate : ℕ) : ℚ)) := by
  exact (emitted_timestamps_arithmetic cfgW (by decide) rfl rfl 100 0 0
    (by norm_num) [3, 7]).2 0 1 (by decide) (by decide)

/-- Counterexample to claim C2: a running worker (counter at 1 Hz,
started at 100) receives STOP with `time_stamp` 101; once
`logical_time >= stop_time` the worker does not reach a terminal state —
it clears `start_time` and parks in the blocking mailbox `get`, i.e. it
returns to idle awaiting another START. -/
theorem stop_does_not_terminate_worker_example :
    (runWorker cfgW initWorkerState
        [startTick 100 0 0, stopTick 101, quietTick]).isBlocked = true
    ∧ (runWorker cfgW initWorkerState
        [startTick 100 0 0, stopTick 101, quietTick]).isExited = false
    ∧ (runWorker cfgW initWorkerState
        [startTick 100 0 0, stopTick 101, quietTick]).finalState.start_time = none := by
  norm_num [runWorker, check_continue, check_control_state, handle_message,
    initialise_time, check_stop_time, check_caps, capHitTime, capHitSamples,
    truthy, emit_step, generate_sample, generate_channel_data, selectedTag,
    startTick, stopTick, quietTick, cfgW, WorkerCfg.delta, initWorkerState,
    RunResult.consEmit, RunResult.isBlocked, RunResult.isExited,
    RunResult.finalState]

/-- Claim C2 (amended): a running worker that receives STOP records
`stop_time`; while `logical_time < stop_time` it keeps emitting, and once
`logical_time >= stop_time` it clears `start_time` and `stop_time` and
returns to idle, blocking on its mailbox, rather than terminating.  A
never-started idle worker that receives STOP with a timestamp raises
`AttributeError` (reading the unassigned `logical_time`).  The loop exits
cleanly only when the external stop event is set. -/
theorem stop_returns_worker_to_idle (cfg : WorkerCfg)
    (hmt : cfg.max_time = none) (hms : cfg.max_samples = none)
    (T L lat e : ℚ) (c : ℕ) (st1 st2 : ℚ)
    (hT : T ≠ 0) (h1 : st1 ≤ L) (h2 : L < st2) :
    runWorker cfg ⟨c, e, some T, none, some L, some lat⟩ [stopTick st1, quietTick]
      = RunResult.blocked ⟨c, e, none, none, some L, some lat⟩ []
    ∧ runWorker cfg ⟨c, e, some T, none, some L, some lat⟩ [stopTick st2]
      = RunResult.fuelOut
          ⟨c + 1, L + cfg.delta - T, some T, some st2, some (L + cfg.delta), some lat⟩
          [⟨generate_sample cfg.sinTau cfg.functions cfg.channel_count
              cfg.stream_idx cfg.nominal_srate e c, L⟩]
    ∧ runWorker cfg initWorkerState [stopTick st2]
      = RunResult.crashed PyError.attributeError
          { initWorkerState with stop_time := some st2 } []
    ∧ ∀ (s2 : WorkerState) (ts2 : List TickInput),
        runWorker cfg s2 (⟨none, 0, true⟩ :: ts2) = RunResult.exited s2 [] := by
  have h2n : ¬ st2 ≤ L := not_le.mpr h2
  refine ⟨?_, ?_, ?_, ?_⟩
  · simp [runWorker, check_continue, check_control_state, handle_message,
      check_stop_time, check_caps, capHitTime, capHitSamples, truthy,
      stopTick, quietTick, hmt, hms, h1]
  · rw [runWorker]
    have hcc : check_continue cfg (stopTick st2)
        ⟨c, e, some T, none, some L, some lat⟩
        = ContinueOutcome.cont ⟨c, e, some T, some st2, some L, some lat⟩ := by
      simp [check_continue, check_control_state, handle_message,
        check_stop_time, check_caps, capHitTime, capHitSamples,
        stopTick, hmt, hms, h2n]
    rw [hcc]
    simp only [truthy_some_of_ne T hT, emit_step, if_true, add_sub_cancel_left,
      runWorker, RunResult.consEmit]
  · simp [runWorker, check_continue, check_control_state, handle_message,
      check_stop_time, stopTick, truthy, initWorkerState]
  · intro s2 ts2
    simp [runWorker, check_continue]

/-- Witness for C2 (amended), instantiated with a 1 Hz counter worker
running at `logical_time = 101` and a STOP stamped 101. -/
theorem stop_returns_worker_to_idle_witness :
    runWorker cfgW ⟨1, 1, some 100, none, some 101, some 0⟩ [stopTick 101, quietTick]
      = RunResult.blocked ⟨1, 1, none, none, some 101, some 0⟩ [] := by
  exact (stop_returns_worker_to_idle cfgW rfl rfl 100 101 0 1 1 101 102
    (by norm_num) (by norm_num) (by norm_num)).1

/-- Claim C3 (code bug): with `max_samples = 2` the worker emits 3 samples
before its loop exits, because `check_continue` tests
`sample_count > max_samples` (strict) after the count has already been
incremented past the cap. -/
theorem max_samples_emits_one_extra_sample :
    (runWorker cfgMax2 initWorkerState
        (startTick 100 0 0 :: List.replicate 5 quietTick)).emits.length = 3
    ∧ (runWorker cfgMax2 initWorkerState
        (startTick 100 0 0 :: List.replicate 5 quietTick)).isExited = true
    ∧ cfgMax2.max_samples = some 2 := by
  norm_num [runWorker, check_continue, check_control_state, handle_message,
    initialise_time, check_stop_time, check_caps, capHitTime, capHitSamples,
    truthy, emit_step, generate_sample, generate_channel_data, selectedTag,
    startTick, quietTick, cfgMax2, cfgW, WorkerCfg.delta, initWorkerState,
    RunResult.consEmit, RunResult.emits, RunResult.isExited, List.replicate]

/-- Claim C4 (code bug): every accepted REPL command pushes with timestamp
`local_clock() + latency` (here `1000 + 1/2`), but the JSON payload only
ever contains the `state` key — START carries no `latency` field, so a
worker that handles the resulting message raises `KeyError` on
`message["latency"]`. -/
theorem start_payload_missing_latency :
    controlSenderPush 1000 (1/2) "start"
      = some (⟨ControlState.START, JField.missing⟩, 1000 + 1/2)
    ∧ controlSenderPush 1000 (1/2) "pause"
      = some (⟨ControlState.PAUSE, JField.missing⟩, 1000 + 1/2)
    ∧ controlSenderPush 1000 (1/2) "stop"
      = some (⟨ControlState.STOP, JField.missing⟩, 1000 + 1/2)
    ∧ handle_message 0 initWorkerState
        (parse_message ⟨ControlState.START, JField.missing⟩ (1000 + 1/2))
      = Except.error PyError.keyError := by
  refine ⟨by simp [controlSenderPush], by simp [controlSenderPush],
    by simp [controlSenderPush], by norm_num [handle_message, parse_message]⟩

/-- Claim C9 (code bug): a PAUSE with a timestamp delivered to an idle
worker that never processed a START makes `check_continue` read the
never-assigned `logical_time` attribute: the loop dies with
`AttributeError` instead of ignoring the message. -/
theorem pause_on_idle_worker_raises :
    runWorker cfgW initWorkerState [pauseTick 100]
      = RunResult.crashed PyError.attributeError
          { initWorkerState with stop_time := some 100 } [] := rfl

/-- `controlSenderPush` factored through the state named by the command. -/
lemma controlSenderPush_eq_cmdState (clock lat : ℚ) (cmd : String) :
    controlSenderPush clock lat cmd
      = (cmdState cmd).map
          (fun st => (⟨st, JField.missing⟩, clock + lat)) := by
  unfold controlSenderPush cmdState
  split_ifs <;> rfl

lemma parse_message_state (p : SenderPayload) (ts : ℚ) :
    (parse_message p ts).state = p.state := rfl

/-- The receiver forwards exactly the state changes of the typed command
sequence. -/
lemma receiver_matches_dedup (lat : ℚ) :
    ∀ (inputs : List (String × ℚ)) (st : ControlState),
      (controlReceiverRun st (controlSenderRun lat inputs)).map ControlMessage.state
        = dedupFrom st (typedStates (inputs.map Prod.fst)) := by
  intro inputs
  induction inputs with
  | nil => intro st; rfl
  | cons p rest ih =>
    intro st
    obtain ⟨cmd, clock⟩ := p
    rw [List.map_cons]
    show (controlReceiverRun st
        (controlSenderRun lat ((cmd, clock) :: rest))).map ControlMessage.state
      = dedupFrom st (typedStates (cmd :: rest.map Prod.fst))
    rw [controlSenderRun, controlSenderPush_eq_cmdState, typedStates]
    cases hcs : cmdState cmd with
    | none =>
      dsimp only [Option.map]
      exact ih st
    | some s =>
      dsimp only [Option.map]
      by_cases hstp : s = ControlState.STOP
      · subst hstp
        by_cases hs : ControlState.STOP = st
        · subst hs
          simp [controlReceiverRun, parse_message, dedupFrom]
        · simp [controlReceiverRun, parse_message, dedupFrom, hs]
      · by_cases hs : s = st
        · subst hs
          simp [controlReceiverRun, parse_message, dedupFrom, hstp, ih]
        · simp [controlReceiverRun, parse_message, dedupFrom, hstp, hs, ih]

/-- Claim C5 (amended): for every sequence of typed REPL commands, the
Control Receiver forwards exactly the state changes — one message per
accepted command whose state differs from the last observed state
(initialised to STOP); repeated states and an initial `stop` are not
forwarded; forwarding a STOP terminates the receiver. -/
theorem receiver_forwards_only_state_changes (lat : ℚ)
    (inputs : List (String × ℚ)) :
    (controlReceiverRun ControlState.STOP
        (controlSenderRun lat inputs)).map ControlMessage.state
      = dedupFrom ControlState.STOP (typedStates (inputs.map Prod.fst)) :=
  receiver_matches_dedup lat inputs ControlState.STOP

/-- Counterexample to claim C5: typing `stop` first pushes exactly one
sample, but the receiver (whose initial state is STOP) forwards nothing —
not exactly one message. -/
theorem initial_stop_not_forwarded :
    (controlSenderRun (1/2) [("stop", 10)]).length = 1
    ∧ controlReceiverRun ControlState.STOP (controlSenderRun (1/2) [("stop", 10)]) = [] := by
  constructor
  · simp [controlSenderRun, controlSenderPush]
  · norm_num [controlSenderRun, controlSenderPush, controlReceiverRun, parse_message]

/-- Counterexample to claim C6: after START at 100, STOP at 101 and a
fresh START at 200, the first sample emitted after the restart carries
counter value (= sample index) 1, not 0, and the final `sample_count` is
2 — `initialise_time` never resets `sample_count`. -/
theorem sample_count_not_reset_on_restart :
    ((runWorker cfgW initWorkerState
        [startTick 100 0 0, stopTick 101, startTick 200 0 0]).emits.map Emission.sample)
      = [[0], [1]]
    ∧ (runWorker cfgW initWorkerState
        [startTick 100 0 0, stopTick 101, startTick 200 0 0]).finalState.sample_count = 2 := by
  norm_num [runWorker, check_continue, check_control_state, handle_message,
    initialise_time, check_stop_time, check_caps, capHitTime, capHitSamples,
    truthy, emit_step, generate_sample, generate_channel_data, selectedTag,
    startTick, stopTick, cfgW, WorkerCfg.delta, initWorkerState,
    RunResult.consEmit, RunResult.emits, RunResult.finalState]

/-- Claim C6 (amended): `sample_count` is non-decreasing over every
execution, and it is never reset — a fresh START after STOP continues
counting from the previous value (in the concrete restart run the count
ends at 2 and the post-restart sample carries index 1). -/
theorem sample_count_monotone_never_reset :
    (∀ (cfg : WorkerCfg) (ticks : List TickInput) (s : WorkerState),
        s.sample_count ≤ (runWorker cfg s ticks).finalState.sample_count)
    ∧ ((runWorker cfgW initWorkerState
        [startTick 100 0 0, stopTick 101, startTick 200 0 0]).emits.map
          Emission.sample).getD 1 [] = [1] := by
  constructor
  · exact fun cfg ticks s => runWorker_sample_count_le cfg ticks s
  · norm_num [runWorker, check_continue, check_control_state, handle_message,
      initialise_time, check_stop_time, check_caps, capHitTime, capHitSamples,
      truthy, emit_step, generate_sample, generate_channel_data, selectedTag,
      startTick, stopTick, cfgW, WorkerCfg.delta, initWorkerState,
      RunResult.consEmit, RunResult.emits]

/-- Claim C7 (code bug): a Relay Worker with monitoring enabled never
reaches its pull loop in this snapshot — `MonitorSender.__init__` (and,
with output enabled, `RelayStream.run` itself at line 87) calls the
zero-argument `make_stream_info` with positional arguments and raises
`TypeError` during setup, so no heartbeat is ever sent (with upstream
rate 500 and `monitor_interval = 5`, no heartbeat at sample counts
0..3 or anywhere else).  With monitoring disabled the loop runs but
sends no heartbeats either.  Moreover the transcribed guard itself is
broken: for a monitor sender as `BaseMarkerStream.__init__` would build
it (`nominal_srate = IRREGULAR_RATE = 0`) the guard fires at
`sample_count = 1`, although `pymod 1 (500*5)` is not 0 — so even past
setup the heartbeat would go out on every relayed sample, not once per
`nominal_srate * monitor_interval` samples as claimed. -/
theorem relay_monitor_setup_raises :
    mkMonitorSender "_monitor_eeg" = Except.error PyError.typeError
    ∧ (∀ output : Bool,
        relayRunHeartbeats "eeg" output true 500 5 4
          = Except.error PyError.typeError)
    ∧ relayRunHeartbeats "eeg" false false 500 5 4 = Except.ok []
    ∧ relay_should_send_heartbeat
        (some ⟨"_monitor_eeg", IRREGULAR_RATE⟩) 500 5 1 = true
    ∧ pymod 1 (500 * 5) ≠ 0 := by
  refine ⟨rfl, ?_, rfl, ?_, ?_⟩
  · intro output
    cases output <;> rfl
  · simp [relay_should_send_heartbeat, IRREGULAR_RATE]
  · have hf : Int.floor ((1 : ℚ) / (500 * 5)) = 0 := by
      rw [Int.floor_eq_zero_iff]
      constructor <;> norm_num
    norm_num [pymod, hf]

/-- Claim C8: the sample generator matches the tag table — wherever the
selected tag is `counter+` the value of sample `n`, channel `c` is
`n * channel_count + c`; past the end of the tag list the selected tag is
the last supplied tag; and with `channel_count = 4` and the single tag
`counter+`, sample `n` is `[4n, 4n+1, 4n+2, 4n+3]`. -/
theorem generator_counter_plus_and_last_tag (sinTau : ℚ → ℚ)
    (functions : List FnTag) (channel_count : ℕ) (stream_idx : ℤ)
    (nominal_srate : ℕ) (time : ℚ) (n c : ℕ) (hne : functions ≠ []) :
    (selectedTag functions c = FnTag.counterPlus →
      generate_channel_data sinTau functions channel_count stream_idx
          nominal_srate time n c
        = (n : ℚ) * (channel_count : ℚ) + (c : ℚ))
    ∧ (functions.length ≤ c → functions.getLast? = some (selectedTag functions c))
    ∧ generate_sample sinTau [FnTag.counterPlus] 4 stream_idx nominal_srate time n
      = [(n : ℚ) * 4, (n : ℚ) * 4 + 1, (n : ℚ) * 4 + 2, (n : ℚ) * 4 + 3] := by
  refine ⟨?_, ?_, ?_⟩
  · intro h
    unfold generate_channel_data
    rw [h]
  · intro hlen
    have hl1 : 1 ≤ functions.length := by
      cases functions with
      | nil => exact absurd rfl hne
      | cons a l => simp
    have hmin : min c (functions.length - 1) = functions.length - 1 := by omega
    have hlt : functions.length - 1 < functions.length := by omega
    rw [selectedTag, hmin, List.getLast?_eq_getElem?, List.getD_eq_getElem?_getD,
      List.getElem?_eq_getElem hlt]
    rfl
  · have h4 : List.range 4 = [0, 1, 2, 3] := rfl
    rw [generate_sample, h4]
    simp [generate_channel_data, selectedTag]

/-- Witness for C8: one `counter+` tag over 4 channels at sample 7,
channel 2 (which is past the end of the tag list). -/
theorem generator_counter_plus_witness :
    generate_channel_data (fun _ => 0) [FnTag.counterPlus] 4 0 500 0 7 2
      = ((7 : ℕ) : ℚ) * ((4 : ℕ) : ℚ) + ((2 : ℕ) : ℚ) := by
  exact (generator_counter_plus_and_last_tag (fun _ => 0) [FnTag.counterPlus]
    4 0 500 0 7 2 (by simp)).1 (by rfl)

/-- Claim C10: `Simulate.__init__` raises the (marker) channel count to the
number of generator functions when more functions than channels are
given, so the adjusted count is exactly `max(requested, len(functions))`
for both the data streams and the marker streams. -/
theorem simulate_channel_count_is_max (channel_count : ℕ)
    (functions : List FnTag) (marker_channel_count : ℕ)
    (marker_functions : List FnTag) :
    simulateChannelCount channel_count functions
      = max channel_count functions.length
    ∧ simulateChannelCount marker_channel_count marker_functions
      = max marker_channel_count marker_functions.length := by
  constructor <;> (unfold simulateChannelCount; split <;> omega)

end Pylsltools
